import Mathlib

/-!
Verification of the lazy-initialization core of lazy-static.rs.

The repository has two source files:

* `src/nightly_lazy.rs`: a generic cell `Lazy<T>(Option<T>, Once)` with a
  constant constructor `Lazy::new` and an accessor `Lazy::get(f)` that runs
  `self.1.call_once(|| *r = Some(f()))` and then reads the slot, with an
  `unreachable` branch for an empty slot.
* `src/lazy_static.rs`: a macro generating, per declared value, a hidden
  `static mut _STATIC: *const T` (initially the null pointer) and a
  `static mut _ONCE: Once`, with `deref` running
  `_ONCE.doit(|| _STATIC = transmute(box(e)))` and then dereferencing
  `_STATIC`.

The `Once` gate is the standard library one and is not under `src/`; it is
modelled from the specification (section 4.1).  Cells are embedded as a pair
of a slot and a gate state; each call to `get`/`deref` is one atomic step of
a sequential trace semantics (a call arriving while the gate is `Running`
is the re-entrancy deadlock of spec section 5 and cannot arise between
top-level calls).  Producers are state transformers over an external shared
state `σ` so that side effects such as incrementing a shared counter are
observable; a producer returning `none` models an unwind (a panic).
-/

/-- Modelled from the spec: the state of the standard library Once gate,
which is not under `src/`.  Spec section 3: one of `Uninitialized`,
`Running`, `Complete`, `Poisoned`. -/
inductive OnceState : Type where
  | Uninitialized : OnceState
  | Running : OnceState
  | Complete : OnceState
  | Poisoned : OnceState
deriving DecidableEq, Repr

/-- Outcome of one `get`/`deref` call in the embedding.

* `ok v` — the call returned a reference whose target is `v`;
* `panicked` — the original producer failure was re-raised to this caller
  (the winning call whose own producer unwound);
* `poisoned` — the call failed with `PoisonedError`;
* `deadlock` — the call arrived while the gate was `Running` and blocks
  forever (the re-entrancy hazard of spec section 5);
* `unreachableHit` — the empty-slot read branch was taken
  (`None => unreachable()` in `Lazy::get`, the null-pointer dereference in
  the macro `deref`). -/
inductive GetResult (T : Type) : Type where
  | ok : T → GetResult T
  | panicked : GetResult T
  | poisoned : GetResult T
  | deadlock : GetResult T
  | unreachableHit : GetResult T
deriving DecidableEq, Repr

/-- A producer: a zero-argument closure, embedded as a transformer of the
external shared state `σ`; result `none` models an unwind (panic). -/
def Producer (σ T : Type) : Type := σ → σ × Option T

/-- The cell `pub struct Lazy<T: Sync>(Option<T>, Once)` of
`src/nightly_lazy.rs`, line 6: a slot and its Once gate. -/
structure Lazy (T : Type) : Type where
  slot : Option T
  gate : OnceState
deriving DecidableEq, Repr

/-- `Lazy::new`, `src/nightly_lazy.rs` lines 10-12:
`Lazy(None, ONCE_INIT)`. -/
def Lazy.new (T : Type) : Lazy T := ⟨none, OnceState.Uninitialized⟩

/-- `Lazy::get`, `src/nightly_lazy.rs` lines 15-30.  First
`self.1.call_once(|| *r = Some(f()))` (gate modelled from spec section
4.1: fast path on `Complete`; fail with `PoisonedError` on `Poisoned`;
block on `Running`; otherwise claim the transition, run the action, and
move to `Complete`, or to `Poisoned` re-raising the failure if the action
unwound).  If the gate call returned normally, read the slot:
`match self.0 { Some(ref x) => x, None => unreachable() }`. -/
def Lazy.get {T σ : Type} (c : Lazy T) (f : Producer σ T) (s : σ) :
    Lazy T × σ × GetResult T :=
  let step : Lazy T × σ × Option (GetResult T) :=
    match c.gate with
    | OnceState.Complete => (c, s, none)
    | OnceState.Poisoned => (c, s, some GetResult.poisoned)
    | OnceState.Running => (c, s, some GetResult.deadlock)
    | OnceState.Uninitialized =>
      match f s with
      | (s', some v) => (⟨some v, OnceState.Complete⟩, s', none)
      | (s', none) => (⟨c.slot, OnceState.Poisoned⟩, s', some GetResult.panicked)
  match step with
  | (c', s', some r) => (c', s', r)
  | (c', s', none) =>
    (c', s',
      match c'.slot with
      | some x => GetResult.ok x
      | none => GetResult.unreachableHit)

/-- A sequence of `get` calls on one cell, each with its own producer,
threading the cell state and the external shared state. -/
def runGets {T σ : Type} (c : Lazy T) (fs : List (Producer σ T)) (s : σ) :
    Lazy T × σ × List (GetResult T) :=
  match fs with
  | [] => (c, s, [])
  | f :: rest =>
    let r := Lazy.get c f s
    let q := runGets r.1 rest r.2.1
    (q.1, q.2.1, r.2.2 :: q.2.2)

/-- The hidden state generated by the macro of `src/lazy_static.rs` lines
99-100: `static mut _STATIC: *const T = 0 as *const T` (the null pointer,
embedded as `none`; a pointer to a boxed value as `some`) and
`static mut _ONCE: Once = ONCE_INIT`. -/
structure LazyStatic (T : Type) : Type where
  static_ : Option T
  once : OnceState
deriving DecidableEq, Repr

/-- The initial macro-generated state: null `_STATIC`, fresh `_ONCE`. -/
def LazyStatic.init (T : Type) : LazyStatic T :=
  ⟨none, OnceState.Uninitialized⟩

/-- The `deref` of `src/lazy_static.rs` lines 106-115:
`_ONCE.doit(|| _STATIC = transmute(box(e)))` (gate modelled from spec
section 4.1, as in `Lazy.get`), then `&*_STATIC` — dereferencing the null
pointer is the unreachable empty-slot branch. -/
def LazyStatic.deref {T σ : Type} (c : LazyStatic T) (e : Producer σ T) (s : σ) :
    LazyStatic T × σ × GetResult T :=
  let step : LazyStatic T × σ × Option (GetResult T) :=
    match c.once with
    | OnceState.Complete => (c, s, none)
    | OnceState.Poisoned => (c, s, some GetResult.poisoned)
    | OnceState.Running => (c, s, some GetResult.deadlock)
    | OnceState.Uninitialized =>
      match e s with
      | (s', some v) => (⟨some v, OnceState.Complete⟩, s', none)
      | (s', none) => (⟨c.static_, OnceState.Poisoned⟩, s', some GetResult.panicked)
  match step with
  | (c', s', some r) => (c', s', r)
  | (c', s', none) =>
    (c', s',
      match c'.static_ with
      | some x => GetResult.ok x
      | none => GetResult.unreachableHit)

/-- `n` successive `deref` calls on one macro-generated static; the macro
passes textually the same initializer expression `e` on every call. -/
def runDerefs {T σ : Type} (e : Producer σ T) :
    Nat → LazyStatic T → σ → LazyStatic T × σ × List (GetResult T)
  | 0, c, s => (c, s, [])
  | n + 1, c, s =>
    let r := LazyStatic.deref c e s
    let q := runDerefs e n r.1 r.2.1
    (q.1, q.2.1, r.2.2 :: q.2.2)

/-- A producer that increments a shared counter on invocation and returns
`5` (for concrete test traces). -/
def prodFive : Producer Nat Nat := fun n => (n + 1, some 5)

/-- A producer that increments a shared counter on invocation and returns
`7` (for concrete test traces). -/
def prodSeven : Producer Nat Nat := fun n => (n + 1, some 7)

/-- A producer that increments a shared counter on invocation and then
unwinds (for concrete test traces). -/
def prodFail : Producer Nat Nat := fun n => (n + 1, none)

/-- A producer increments the shared counter exactly once per invocation
(spec section 8, exactly-once test). -/
def CountsOnce {T : Type} (f : Producer Nat T) : Prop :=
  ∀ n : Nat, (f n).1 = n + 1

/-- On a gate already `Complete` with a filled slot, `get` is the fast
path: state untouched, the filled value returned. -/
theorem Lazy.get_complete_some {T σ : Type} (c : Lazy T) (f : Producer σ T)
    (s : σ) (v : T) (hg : c.gate = OnceState.Complete) (hs : c.slot = some v) :
    Lazy.get c f s = (c, s, GetResult.ok v) := by
  simp [Lazy.get, hg, hs]

/-- On a `Poisoned` gate, `get` fails with `PoisonedError` and touches
nothing. -/
theorem Lazy.get_poisoned {T σ : Type} (c : Lazy T) (f : Producer σ T)
    (s : σ) (hg : c.gate = OnceState.Poisoned) :
    Lazy.get c f s = (c, s, GetResult.poisoned) := by
  simp [Lazy.get, hg]

/-- On a fresh cell whose producer returns normally, `get` fills the slot
with the produced value, completes the gate, and returns that value. -/
theorem Lazy.get_new_success {T σ : Type} (f : Producer σ T) (s s' : σ)
    (v : T) (hf : f s = (s', some v)) :
    Lazy.get (Lazy.new T) f s =
      (⟨some v, OnceState.Complete⟩, s', GetResult.ok v) := by
  simp [Lazy.get, Lazy.new, hf]

/-- On a fresh cell whose producer unwinds, `get` re-raises the failure,
poisons the gate, and leaves the slot empty. -/
theorem Lazy.get_new_fail {T σ : Type} (f : Producer σ T) (s s' : σ)
    (hf : f s = (s', none)) :
    Lazy.get (Lazy.new T) f s =
      (⟨none, OnceState.Poisoned⟩, s', GetResult.panicked) := by
  simp [Lazy.get, Lazy.new, hf]

/-- A whole trace of `get` calls on a completed cell with a filled slot
touches nothing and answers the filled value every time. -/
theorem runGets_complete {T σ : Type} (c : Lazy T) (v : T)
    (hg : c.gate = OnceState.Complete) (hs : c.slot = some v) :
    ∀ (fs : List (Producer σ T)) (s : σ),
      runGets c fs s = (c, s, List.replicate fs.length (GetResult.ok v))
  | [], s => by simp [runGets]
  | f :: rest, s => by
    simp [runGets, Lazy.get_complete_some c f s v hg hs,
      runGets_complete c v hg hs rest s, List.replicate]

/-- A whole trace of `get` calls on a poisoned cell touches nothing and
fails with `PoisonedError` every time. -/
theorem runGets_poisoned {T σ : Type} (c : Lazy T)
    (hg : c.gate = OnceState.Poisoned) :
    ∀ (fs : List (Producer σ T)) (s : σ),
      runGets c fs s = (c, s, List.replicate fs.length GetResult.poisoned)
  | [], s => by simp [runGets]
  | f :: rest, s => by
    simp [runGets, Lazy.get_poisoned c f s hg,
      runGets_poisoned c hg rest s, List.replicate]

/-- Unless the gate is `Uninitialized`, `get` leaves the cell and the
shared state untouched (in particular, no producer is invoked). -/
theorem Lazy.get_frozen {T σ : Type} (c : Lazy T) (f : Producer σ T) (s : σ)
    (hg : c.gate ≠ OnceState.Uninitialized) :
    (Lazy.get c f s).1 = c ∧ (Lazy.get c f s).2.1 = s := by
  cases hcg : c.gate with
  | Uninitialized => exact absurd hcg hg
  | Running => simp [Lazy.get, hcg]
  | Complete =>
    cases hcs : c.slot with
    | none => simp [Lazy.get, hcg, hcs]
    | some v => simp [Lazy.get, hcg, hcs]
  | Poisoned => simp [Lazy.get, hcg]

/-- On a gate already `Complete` with a non-null `_STATIC`, `deref` is the
fast path: state untouched, the stored value returned. -/
theorem LazyStatic.deref_complete_some {T σ : Type} (c : LazyStatic T)
    (e : Producer σ T) (s : σ) (v : T) (hg : c.once = OnceState.Complete)
    (hs : c.static_ = some v) :
    LazyStatic.deref c e s = (c, s, GetResult.ok v) := by
  simp [LazyStatic.deref, hg, hs]

/-- On a `Poisoned` gate, `deref` fails with `PoisonedError` and touches
nothing. -/
theorem LazyStatic.deref_poisoned {T σ : Type} (c : LazyStatic T)
    (e : Producer σ T) (s : σ) (hg : c.once = OnceState.Poisoned) :
    LazyStatic.deref c e s = (c, s, GetResult.poisoned) := by
  simp [LazyStatic.deref, hg]

/-- On the initial macro state, when the initializer expression returns
normally, `deref` boxes the value into `_STATIC`, completes the gate, and
returns that value. -/
theorem LazyStatic.deref_init_success {T σ : Type} (e : Producer σ T)
    (s s' : σ) (v : T) (he : e s = (s', some v)) :
    LazyStatic.deref (LazyStatic.init T) e s =
      (⟨some v, OnceState.Complete⟩, s', GetResult.ok v) := by
  simp [LazyStatic.deref, LazyStatic.init, he]

/-- On the initial macro state, when the initializer expression unwinds,
`deref` re-raises the failure, poisons the gate, and leaves `_STATIC`
null. -/
theorem LazyStatic.deref_init_fail {T σ : Type} (e : Producer σ T)
    (s s' : σ) (he : e s = (s', none)) :
    LazyStatic.deref (LazyStatic.init T) e s =
      (⟨none, OnceState.Poisoned⟩, s', GetResult.panicked) := by
  simp [LazyStatic.deref, LazyStatic.init, he]

/-- A whole run of `deref` calls on a completed macro state with a
non-null `_STATIC` touches nothing and answers the stored value every
time. -/
theorem runDerefs_complete {T σ : Type} (c : LazyStatic T) (v : T)
    (e : Producer σ T) (hg : c.once = OnceState.Complete)
    (hs : c.static_ = some v) :
    ∀ (n : Nat) (s : σ),
      runDerefs e n c s = (c, s, List.replicate n (GetResult.ok v))
  | 0, s => by simp [runDerefs]
  | n + 1, s => by
    simp [runDerefs, LazyStatic.deref_complete_some c e s v hg hs,
      runDerefs_complete c v e hg hs n s, List.replicate]

/-- A whole run of `deref` calls on a poisoned macro state touches nothing
and fails with `PoisonedError` every time. -/
theorem runDerefs_poisoned {T σ : Type} (c : LazyStatic T)
    (e : Producer σ T) (hg : c.once = OnceState.Poisoned) :
    ∀ (n : Nat) (s : σ),
      runDerefs e n c s = (c, s, List.replicate n GetResult.poisoned)
  | 0, s => by simp [runDerefs]
  | n + 1, s => by
    simp [runDerefs, LazyStatic.deref_poisoned c e s hg,
      runDerefs_poisoned c e hg n s, List.replicate]

/-- Unless the gate is `Uninitialized`, `deref` leaves the macro state and
the shared state untouched (in particular, the initializer expression is
not evaluated). -/
theorem LazyStatic.deref_frozen {T σ : Type} (c : LazyStatic T)
    (e : Producer σ T) (s : σ) (hg : c.once ≠ OnceState.Uninitialized) :
    (LazyStatic.deref c e s).1 = c ∧ (LazyStatic.deref c e s).2.1 = s := by
  cases hcg : c.once with
  | Uninitialized => exact absurd hcg hg
  | Running => simp [LazyStatic.deref, hcg]
  | Complete =>
    cases hcs : c.static_ with
    | none => simp [LazyStatic.deref, hcg, hcs]
    | some v => simp [LazyStatic.deref, hcg, hcs]
  | Poisoned => simp [LazyStatic.deref, hcg]

/-- Master lemma: a nonempty trace of `get` calls on a fresh cell is fully
determined by the outcome of the first producer at the initial shared
state — success yields the produced value at every call, failure yields
the re-raised panic and then `PoisonedError` at every later call. -/
theorem runGets_new {T σ : Type} (f : Producer σ T)
    (fs : List (Producer σ T)) (s : σ) :
    runGets (Lazy.new T) (f :: fs) s =
      match f s with
      | (s', some v) =>
        (⟨some v, OnceState.Complete⟩, s',
          GetResult.ok v :: List.replicate fs.length (GetResult.ok v))
      | (s', none) =>
        (⟨none, OnceState.Poisoned⟩, s',
          GetResult.panicked ::
            List.replicate fs.length GetResult.poisoned) := by
  rcases hf : f s with ⟨s', r⟩
  cases r with
  | some v =>
    simp only [runGets, Lazy.get_new_success f s s' v hf,
      runGets_complete (⟨some v, OnceState.Complete⟩ : Lazy T) v rfl rfl fs s']
  | none =>
    simp only [runGets, Lazy.get_new_fail f s s' hf,
      runGets_poisoned (⟨none, OnceState.Poisoned⟩ : Lazy T) rfl fs s']

/-- Master lemma: a nonempty run of `deref` calls on the initial macro
state is fully determined by the outcome of the initializer expression at
the initial shared state. -/
theorem runDerefs_init {T σ : Type} (e : Producer σ T) (n : Nat) (s : σ) :
    runDerefs e (n + 1) (LazyStatic.init T) s =
      match e s with
      | (s', some v) =>
        (⟨some v, OnceState.Complete⟩, s',
          GetResult.ok v :: List.replicate n (GetResult.ok v))
      | (s', none) =>
        (⟨none, OnceState.Poisoned⟩, s',
          GetResult.panicked :: List.replicate n GetResult.poisoned) := by
  rcases he : e s with ⟨s', r⟩
  cases r with
  | some v =>
    simp only [runDerefs, LazyStatic.deref_init_success e s s' v he,
      runDerefs_complete (⟨some v, OnceState.Complete⟩ : LazyStatic T) v e
        rfl rfl n s']
  | none =>
    simp only [runDerefs, LazyStatic.deref_init_fail e s s' he,
      runDerefs_poisoned (⟨none, OnceState.Poisoned⟩ : LazyStatic T) e
        rfl n s']

/-- Reachability invariant of a cell: the gate is never at rest in
`Running`, and a `Complete` gate has a filled slot. -/
def Lazy.Inv {T : Type} (c : Lazy T) : Prop :=
  c.gate ≠ OnceState.Running ∧
    (c.gate = OnceState.Complete → c.slot ≠ none)

/-- C1: for every cell and every sequence of `get` (or `deref`) calls, a
producer is invoked exactly once — by the first call — and subsequent
producers are never invoked: with every producer incrementing a shared
counter on invocation, the counter equals 1 after any nonempty sequence of
calls on a fresh cell, starting from 0. -/
theorem claim1_producer_invoked_exactly_once {T : Type}
    (fs : List (Producer Nat T)) (hfs : ∀ f ∈ fs, CountsOnce f)
    (hne : fs ≠ []) (e : Producer Nat T) (he : CountsOnce e)
    (n : Nat) (hn : 1 ≤ n) :
    (runGets (Lazy.new T) fs 0).2.1 = 1 ∧
    (runDerefs e n (LazyStatic.init T) 0).2.1 = 1 := by
  constructor
  · rcases fs with _ | ⟨f, rest⟩
    · exact absurd rfl hne
    · have hc : (f 0).1 = 0 + 1 := hfs f (List.mem_cons_self f rest) 0
      rcases hf : f 0 with ⟨s', r⟩
      rw [hf] at hc
      rw [runGets_new f rest 0, hf]
      cases r <;> simp_all
  · obtain ⟨m, rfl⟩ : ∃ m, n = m + 1 := ⟨n - 1, by omega⟩
    have hc : (e 0).1 = 0 + 1 := he 0
    rcases hev : e 0 with ⟨s', r⟩
    rw [hev] at hc
    rw [runDerefs_init e m 0, hev]
    cases r <;> simp_all

/-- C2: on a fresh (empty) cell, `get` with a producer that returns `v`
evaluates the producer, moves `v` into the slot, completes the gate, and
returns `v`; likewise the first `deref` on the initial macro state. -/
theorem claim2_first_get_returns_produced_value {T σ : Type}
    (f : Producer σ T) (s s' : σ) (v : T) (hf : f s = (s', some v))
    (e : Producer σ T) (t t' : σ) (w : T) (he : e t = (t', some w)) :
    Lazy.get (Lazy.new T) f s =
      (⟨some v, OnceState.Complete⟩, s', GetResult.ok v) ∧
    LazyStatic.deref (LazyStatic.init T) e t =
      (⟨some w, OnceState.Complete⟩, t', GetResult.ok w) :=
  ⟨Lazy.get_new_success f s s' v hf,
   LazyStatic.deref_init_success e t t' w he⟩

/-- C3: after the first successful `get`, the cell is the completed cell
holding the produced value, and every later call — any number of them,
with any producers — returns that same value and leaves the cell (the
underlying storage) identical; likewise for the macro state under
`deref`. -/
theorem claim3_reference_stability {T σ : Type}
    (f : Producer σ T) (s s' : σ) (v : T) (hf : f s = (s', some v))
    (fs : List (Producer σ T)) (u : σ)
    (e : Producer σ T) (t t' : σ) (w : T) (he : e t = (t', some w))
    (n : Nat) (u' : σ) :
    (Lazy.get (Lazy.new T) f s).1 = ⟨some v, OnceState.Complete⟩ ∧
    (Lazy.get (Lazy.new T) f s).2.2 = GetResult.ok v ∧
    runGets (⟨some v, OnceState.Complete⟩ : Lazy T) fs u =
      (⟨some v, OnceState.Complete⟩, u,
        List.replicate fs.length (GetResult.ok v)) ∧
    (LazyStatic.deref (LazyStatic.init T) e t).1 =
      ⟨some w, OnceState.Complete⟩ ∧
    (LazyStatic.deref (LazyStatic.init T) e t).2.2 = GetResult.ok w ∧
    runDerefs e n (⟨some w, OnceState.Complete⟩ : LazyStatic T) u' =
      (⟨some w, OnceState.Complete⟩, u',
        List.replicate n (GetResult.ok w)) := by
  refine ⟨?_, ?_, ?_, ?_, ?_, ?_⟩
  · rw [Lazy.get_new_success f s s' v hf]
  · rw [Lazy.get_new_success f s s' v hf]
  · exact runGets_complete _ v rfl rfl fs u
  · rw [LazyStatic.deref_init_success e t t' w he]
  · rw [LazyStatic.deref_init_success e t t' w he]
  · exact runDerefs_complete _ w e rfl rfl n u'

/-- C4: on a poisoned cell every subsequent call — any number, any
producers — fails with `PoisonedError` and never returns a reference, and
poisoning is permanent (the gate is still `Poisoned` after any trace);
moreover `PoisonedError` is the only error kind the core itself raises: on
any cell satisfying the reachability invariant, a call either returns a
value, fails with `PoisonedError`, or re-raises the failure of its own
producer. -/
theorem claim4_poisoning_is_permanent {T σ : Type}
    (c : Lazy T) (hp : c.gate = OnceState.Poisoned)
    (fs : List (Producer σ T)) (s : σ)
    (m : LazyStatic T) (hmp : m.once = OnceState.Poisoned)
    (e : Producer σ T) (n : Nat) (t : σ) :
    runGets c fs s = (c, s, List.replicate fs.length GetResult.poisoned) ∧
    (runGets c fs s).1.gate = OnceState.Poisoned ∧
    runDerefs e n m t = (m, t, List.replicate n GetResult.poisoned) ∧
    (runDerefs e n m t).1.once = OnceState.Poisoned ∧
    (∀ (d : Lazy T) (g : Producer σ T) (u : σ), Lazy.Inv d →
      (∃ w, (Lazy.get d g u).2.2 = GetResult.ok w) ∨
      (Lazy.get d g u).2.2 = GetResult.poisoned ∨
      ((Lazy.get d g u).2.2 = GetResult.panicked ∧ (g u).2 = none)) := by
  refine ⟨runGets_poisoned c hp fs s, ?_, runDerefs_poisoned m e hmp n t,
    ?_, ?_⟩
  · rw [runGets_poisoned c hp fs s]; exact hp
  · rw [runDerefs_poisoned m e hmp n t]; exact hmp
  · intro d g u hd
    rcases hd with ⟨hnr, hcs⟩
    cases hdg : d.gate with
    | Uninitialized =>
      rcases hg : g u with ⟨u', r⟩
      cases r with
      | some w => left; exact ⟨w, by simp [Lazy.get, hdg, hg]⟩
      | none => right; right; simp [Lazy.get, hdg, hg]
    | Running => exact absurd hdg hnr
    | Complete =>
      rcases hsl : d.slot with _ | ⟨w⟩
      · exact absurd hsl (hcs hdg)
      · left; exact ⟨w, by simp [Lazy.get, hdg, hsl]⟩
    | Poisoned => right; left; simp [Lazy.get, hdg]

/-- C5: the slot is written only by the gate-winning step (a call changes
the slot only when the gate was `Uninitialized`); a call on a
non-`Uninitialized` gate changes nothing; once the gate is `Complete` with
a filled slot, no trace of calls ever changes the cell; and after the
first call on a fresh cell the gate is never `Uninitialized` again, so the
slot is written at most once on any trace from a fresh cell.  Likewise for
the macro state. -/
theorem claim5_slot_written_at_most_once {T σ : Type} :
    (∀ (c : Lazy T) (f : Producer σ T) (s : σ),
      (Lazy.get c f s).1.slot ≠ c.slot → c.gate = OnceState.Uninitialized) ∧
    (∀ (c : Lazy T) (f : Producer σ T) (s : σ),
      c.gate ≠ OnceState.Uninitialized → (Lazy.get c f s).1 = c) ∧
    (∀ (c : Lazy T) (v : T) (fs : List (Producer σ T)) (s : σ),
      c.gate = OnceState.Complete → c.slot = some v →
      (runGets c fs s).1 = c) ∧
    (∀ (f : Producer σ T) (fs : List (Producer σ T)) (s : σ),
      (runGets (Lazy.new T) (f :: fs) s).1.gate ≠ OnceState.Uninitialized) ∧
    (∀ (m : LazyStatic T) (e : Producer σ T) (s : σ),
      (LazyStatic.deref m e s).1.static_ ≠ m.static_ →
      m.once = OnceState.Uninitialized) ∧
    (∀ (m : LazyStatic T) (e : Producer σ T) (s : σ),
      m.once ≠ OnceState.Uninitialized → (LazyStatic.deref m e s).1 = m) ∧
    (∀ (m : LazyStatic T) (w : T) (e : Producer σ T) (n : Nat) (s : σ),
      m.once = OnceState.Complete → m.static_ = some w →
      (runDerefs e n m s).1 = m) ∧
    (∀ (e : Producer σ T) (n : Nat) (s : σ),
      (runDerefs e (n + 1) (LazyStatic.init T) s).1.once ≠
        OnceState.Uninitialized) := by
  refine ⟨?_, ?_, ?_, ?_, ?_, ?_, ?_, ?_⟩
  · intro c f s hch
    by_contra hne
    exact hch (congrArg Lazy.slot (Lazy.get_frozen c f s hne).1)
  · intro c f s hg
    exact (Lazy.get_frozen c f s hg).1
  · intro c v fs s hg hs
    rw [runGets_complete c v hg hs fs s]
  · intro f fs s
    rcases hf : f s with ⟨s', r⟩
    rw [runGets_new f fs s, hf]
    cases r <;> simp
  · intro m e s hch
    by_contra hne
    exact hch (congrArg LazyStatic.static_ (LazyStatic.deref_frozen m e s hne).1)
  · intro m e s hg
    exact (LazyStatic.deref_frozen m e s hg).1
  · intro m w e n s hg hs
    rw [runDerefs_complete m w e hg hs n s]
  · intro e n s
    rcases hev : e s with ⟨s', r⟩
    rw [runDerefs_init e n s, hev]
    cases r <;> simp

/-- C6: on any trace of calls starting from a fresh cell, the empty-slot
read branch (`None => unreachable()` in `Lazy::get`, the null-pointer
dereference in the macro `deref`) is never taken: `unreachableHit` never
appears among the results; a gate call that returns successfully always
leaves a filled slot behind. -/
theorem claim6_unreachable_branch_never_taken {T σ : Type}
    (fs : List (Producer σ T)) (s : σ)
    (e : Producer σ T) (n : Nat) (t : σ) :
    GetResult.unreachableHit ∉ (runGets (Lazy.new T) fs s).2.2 ∧
    GetResult.unreachableHit ∉
      (runDerefs e n (LazyStatic.init T) t).2.2 := by
  constructor
  · rcases fs with _ | ⟨f, rest⟩
    · simp [runGets]
    · rcases hf : f s with ⟨s', r⟩
      rw [runGets_new f rest s, hf]
      cases r <;> simp [List.mem_replicate]
  · rcases n with _ | m
    · simp [runDerefs]
    · rcases hev : e t with ⟨t', r⟩
      rw [runDerefs_init e m t, hev]
      cases r <;> simp [List.mem_replicate]

/-- C7: cell construction is a no-argument constant producing an empty
cell — slot empty (`None` / null `_STATIC`), gate in its initial
`Uninitialized` state — and invokes no producer: running zero calls leaves
the shared state untouched, and the first `get` on a fresh cell hands the
producer the untouched initial shared state. -/
theorem claim7_construction_is_inert {T σ : Type} (s : σ)
    (f : Producer σ T) (s' : σ) (v : T) (hf : f s = (s', some v)) :
    (Lazy.new T).slot = none ∧
    (Lazy.new T).gate = OnceState.Uninitialized ∧
    (LazyStatic.init T).static_ = none ∧
    (LazyStatic.init T).once = OnceState.Uninitialized ∧
    runGets (Lazy.new T) [] s = (Lazy.new T, s, []) ∧
    runDerefs f 0 (LazyStatic.init T) s = (LazyStatic.init T, s, []) ∧
    (Lazy.get (Lazy.new T) f s).2.1 = s' := by
  refine ⟨rfl, rfl, rfl, rfl, rfl, rfl, ?_⟩
  rw [Lazy.get_new_success f s s' v hf]

/-- C8: when the producer unwinds on the winning call on a fresh cell, the
original failure is re-raised to that caller, the gate transitions to
`Poisoned`, every later call fails with `PoisonedError`, the slot stays
empty for the whole trace, and no call ever observes a constructed value;
likewise for the macro state. -/
theorem claim8_producer_failure_poisons {T σ : Type}
    (f : Producer σ T) (s s' : σ) (hf : f s = (s', none))
    (fs : List (Producer σ T))
    (e : Producer σ T) (t t' : σ) (he : e t = (t', none)) (n : Nat) :
    runGets (Lazy.new T) (f :: fs) s =
      (⟨none, OnceState.Poisoned⟩, s',
        GetResult.panicked :: List.replicate fs.length GetResult.poisoned) ∧
    (∀ w : T, GetResult.ok w ∉ (runGets (Lazy.new T) (f :: fs) s).2.2) ∧
    runDerefs e (n + 1) (LazyStatic.init T) t =
      (⟨none, OnceState.Poisoned⟩, t',
        GetResult.panicked :: List.replicate n GetResult.poisoned) ∧
    (∀ w : T,
      GetResult.ok w ∉ (runDerefs e (n + 1) (LazyStatic.init T) t).2.2) := by
  have h1 : runGets (Lazy.new T) (f :: fs) s =
      (⟨none, OnceState.Poisoned⟩, s',
        GetResult.panicked :: List.replicate fs.length GetResult.poisoned) := by
    rw [runGets_new f fs s, hf]
  have h2 : runDerefs e (n + 1) (LazyStatic.init T) t =
      (⟨none, OnceState.Poisoned⟩, t',
        GetResult.panicked :: List.replicate n GetResult.poisoned) := by
    rw [runDerefs_init e n t, he]
  refine ⟨h1, ?_, h2, ?_⟩
  · intro w
    rw [h1]
    simp [List.mem_replicate]
  · intro w
    rw [h2]
    simp [List.mem_replicate]

/-- C10: the stored value and every returned value are a deterministic
function of the first producer alone: two traces on fresh cells, possibly
over different shared-state types, whose first producers succeed with the
same value and which make the same number of calls, return equal result
lists and end in cells with equal slots — whatever the never-invoked later
producers are. -/
theorem claim10_value_depends_only_on_first_producer {T σ₁ σ₂ : Type}
    (f : Producer σ₁ T) (g : Producer σ₂ T) (s : σ₁) (t : σ₂)
    (s' : σ₁) (t' : σ₂) (v : T)
    (hf : f s = (s', some v)) (hg : g t = (t', some v))
    (fs : List (Producer σ₁ T)) (gs : List (Producer σ₂ T))
    (hlen : fs.length = gs.length) :
    (runGets (Lazy.new T) (f :: fs) s).2.2 =
      (runGets (Lazy.new T) (g :: gs) t).2.2 ∧
    (runGets (Lazy.new T) (f :: fs) s).1.slot =
      (runGets (Lazy.new T) (g :: gs) t).1.slot := by
  rw [runGets_new f fs s, hf, runGets_new g gs t, hg]
  simp [hlen]

/-- Witness for C1 at a concrete trace: two counting producers on a fresh
cell, and two derefs of a counting initializer, leave the counter at 1. -/
theorem claim1_witness :
    (runGets (Lazy.new Nat) [prodFive, prodFail] 0).2.1 = 1 ∧
    (runDerefs prodSeven 2 (LazyStatic.init Nat) 0).2.1 = 1 :=
  claim1_producer_invoked_exactly_once [prodFive, prodFail]
    (by intro f hf
        simp [List.mem_cons] at hf
        rcases hf with rfl | rfl <;> intro n <;> rfl)
    (by simp) prodSeven (fun n => rfl) 2 (by decide)

/-- Witness for C2 at concrete producers. -/
theorem claim2_witness :
    Lazy.get (Lazy.new Nat) prodFive 0 =
      (⟨some 5, OnceState.Complete⟩, 1, GetResult.ok 5) ∧
    LazyStatic.deref (LazyStatic.init Nat) prodSeven 0 =
      (⟨some 7, OnceState.Complete⟩, 1, GetResult.ok 7) :=
  claim2_first_get_returns_produced_value prodFive 0 1 5 rfl
    prodSeven 0 1 7 rfl

/-- Witness for C3 at a concrete trace. -/
theorem claim3_witness :
    (Lazy.get (Lazy.new Nat) prodFive 0).2.2 = GetResult.ok 5 ∧
    runGets (⟨some 5, OnceState.Complete⟩ : Lazy Nat) [prodSeven] 4 =
      (⟨some 5, OnceState.Complete⟩, 4,
        List.replicate 1 (GetResult.ok 5)) := by
  have h := claim3_reference_stability prodFive 0 1 5 rfl [prodSeven] 4
    prodSeven 0 1 7 rfl 2 9
  exact ⟨h.2.1, h.2.2.1⟩

/-- Witness for C4 at a concrete poisoned cell. -/
theorem claim4_witness :
    runGets (⟨none, OnceState.Poisoned⟩ : Lazy Nat) [prodFive] 0 =
      (⟨none, OnceState.Poisoned⟩, 0,
        List.replicate 1 GetResult.poisoned) :=
  (claim4_poisoning_is_permanent (⟨none, OnceState.Poisoned⟩ : Lazy Nat)
    rfl [prodFive] 0 (⟨none, OnceState.Poisoned⟩ : LazyStatic Nat) rfl
    prodSeven 1 0).1

/-- Witness for C5 at a concrete completed cell. -/
theorem claim5_witness :
    (runGets (⟨some 5, OnceState.Complete⟩ : Lazy Nat) [prodSeven] 0).1 =
      ⟨some 5, OnceState.Complete⟩ :=
  (claim5_slot_written_at_most_once).2.2.1
    ⟨some 5, OnceState.Complete⟩ 5 [prodSeven] 0 rfl rfl

/-- Witness for C6 at a concrete trace. -/
theorem claim6_witness :
    GetResult.unreachableHit ∉
      (runGets (Lazy.new Nat) [prodFive, prodSeven] 0).2.2 :=
  (claim6_unreachable_branch_never_taken [prodFive, prodSeven] 0
    prodFail 3 0).1

/-- Witness for C7 at a concrete producer. -/
theorem claim7_witness :
    (Lazy.get (Lazy.new Nat) prodFive 0).2.1 = 1 :=
  (claim7_construction_is_inert 0 prodFive 1 5 rfl).2.2.2.2.2.2

/-- Witness for C8 at a concrete failing producer. -/
theorem claim8_witness :
    runGets (Lazy.new Nat) [prodFail, prodFive] 0 =
      (⟨none, OnceState.Poisoned⟩, 1,
        GetResult.panicked :: List.replicate 1 GetResult.poisoned) :=
  (claim8_producer_failure_poisons prodFail 0 1 rfl [prodFive]
    prodFail 0 1 rfl 1).1

/-- Witness for C10: two traces whose first producers both compute 5, with
different later producers and different initial counters, return the same
results. -/
theorem claim10_witness :
    (runGets (Lazy.new Nat) [prodFive, prodFail] 0).2.2 =
      (runGets (Lazy.new Nat) [prodFive, prodSeven] 5).2.2 :=
  (claim10_value_depends_only_on_first_producer prodFive prodFive 0 5 1 6 5
    rfl rfl [prodFail] [prodSeven] rfl).1
